import Mathlib

/-!
Verification development for the LivePrecisionCalculator repository
(`fastapi_main.py`, `currency_manager.py`, `healing_suite.py`).

The Python sources are shallowly embedded below.  Python `Decimal` values
are modelled as `ℚ` together with explicit quantization to the configured
60 significant digits under round-half-to-even (the module-level
`getcontext().prec = 60` / `ROUND_HALF_EVEN` configuration); operand
strings are parsed by an embedding of the decimal-literal grammar; network
providers are modelled as oracle functions returning `Option ℚ` (a `None`
result stands for the provider's caught-and-counted failure path); and the
mutable manager state is threaded explicitly.
-/

namespace HtZKD

/-! ## Character and string helpers (embedding of `str.lower`, `str.upper`,
substring membership as used by `in` and by `re.search` on
alternation-of-literals regexes with `re.IGNORECASE`). -/

/-- Lower-case a character list, modelling Python `str.lower()` on the
ASCII strings that occur in the sources. -/
def lowerChars (l : List Char) : List Char := l.map Char.toLower

/-- Upper-case a character list, modelling Python `str.upper()`. -/
def upperChars (l : List Char) : List Char := l.map Char.toUpper

/-- String form of `lowerChars`, modelling Python `s.lower()`. -/
def strLower (s : String) : String := String.mk (lowerChars s.toList)

/-- String form of `upperChars`, modelling Python `s.upper()`. -/
def strUpper (s : String) : String := String.mk (upperChars s.toList)

/-- Boolean prefix test on character lists. -/
def isPrefixChars : List Char → List Char → Bool
  | [], _ => true
  | _ :: _, [] => false
  | a :: as, b :: bs => a == b && isPrefixChars as bs

/-- Boolean substring test on character lists: `needle` occurs contiguously
inside `hay`.  This is the semantics of Python `needle in hay` and of
`re.search` applied to a literal (escaped) pattern. -/
def containsSub (needle : List Char) : List Char → Bool
  | [] => isPrefixChars needle []
  | c :: t => isPrefixChars needle (c :: t) || containsSub needle t

/-- Case-insensitive substring test on strings: the semantics of
`needle in hay.lower()` (for an already-lower-case needle) and of
`re.search(literal, hay, re.IGNORECASE)`. -/
def containsCI (needle hay : String) : Bool :=
  containsSub (lowerChars needle.toList) (lowerChars hay.toList)

/-! ## Decimal arithmetic model -/

/-- Fuelled base-10 logarithm on naturals (`log10Fuel fuel n` is the number
of times `n` can be divided by 10 before dropping below 10, provided
`fuel` bounds that count).  Structural recursion keeps it kernel-reducible. -/
def log10Fuel : ℕ → ℕ → ℕ
  | 0, _ => 0
  | fuel + 1, n => if n < 10 then 0 else log10Fuel fuel (n / 10) + 1

/-- Base-10 logarithm (floor) of a natural number, with `log10 0 = 0`. -/
def log10 (n : ℕ) : ℕ := log10Fuel n n

/-- Integer power of ten as a rational, for both signs of the exponent. -/
def pow10 : ℤ → ℚ
  | Int.ofNat n => (10 : ℚ) ^ n
  | Int.negSucc n => 1 / (10 : ℚ) ^ (n + 1)

/-- Floor of a rational as an integer (kernel-reducible). -/
def ratFloor (q : ℚ) : ℤ := q.num.fdiv (q.den : ℤ)

/-- Round a rational to the nearest integer, ties to even: the
`ROUND_HALF_EVEN` rounding mode fixed by the sources. -/
def roundHalfEvenZ (q : ℚ) : ℤ :=
  let f := ratFloor q
  let r := q - (f : ℚ)
  if r < 1 / 2 then f
  else if 1 / 2 < r then f + 1
  else if f % 2 = 0 then f else f + 1

/-- Decimal exponent of a nonzero rational: the unique `e` with
`10 ^ e ≤ |q| < 10 ^ (e + 1)` (junk value at `0`). -/
def decExp (q : ℚ) : ℤ :=
  let n := q.num.natAbs
  let d := q.den
  let k := log10 d + 1
  (log10 (n * 10 ^ k / d) : ℤ) - (k : ℤ)

/-- Quantize a rational to `p` significant decimal digits under
round-half-to-even: the effect of the `Decimal` context with
`prec = p` on an operation result. -/
def quantizeSig (p : ℕ) (q : ℚ) : ℚ :=
  if q = 0 then 0
  else
    let s : ℤ := (p : ℤ) - 1 - decExp q
    (roundHalfEvenZ (q * pow10 s) : ℚ) * pow10 (-s)

/-- Round a rational to `dp` decimal places under round-half-to-even: the
effect of `value.quantize(Decimal(0.1) ** dp)`. -/
def quantizeDp (dp : ℕ) (q : ℚ) : ℚ :=
  (roundHalfEvenZ (q * (10 : ℚ) ^ dp) : ℚ) / (10 : ℚ) ^ dp

/-- Decimal addition at the configured 60-digit precision. -/
def decAdd (a b : ℚ) : ℚ := quantizeSig 60 (a + b)

/-- Decimal subtraction at the configured 60-digit precision. -/
def decSub (a b : ℚ) : ℚ := quantizeSig 60 (a - b)

/-- Decimal multiplication at the configured 60-digit precision. -/
def decMul (a b : ℚ) : ℚ := quantizeSig 60 (a * b)

/-- Decimal division at the configured 60-digit precision. -/
def decDiv (a b : ℚ) : ℚ := quantizeSig 60 (a / b)

/-- Decimal absolute value (context-rounded, as Python `abs(Decimal)`). -/
def decAbs (a : ℚ) : ℚ := quantizeSig 60 |a|

/-- Decimal negation (context-rounded, as Python unary minus). -/
def decNeg (a : ℚ) : ℚ := quantizeSig 60 (-a)

/-- Decimal power.  Integral exponents follow the source exactly (exact
power, then context rounding).  Non-integral exponents go through the
`Decimal` ln/exp machinery, which is outside this model; no claim in this
development evaluates that branch, so it is given a placeholder value. -/
def decPow (a b : ℚ) : ℚ := if b.den = 1 then quantizeSig 60 (a ^ b.num) else 0

/-- Approximate model of `Decimal.sqrt` (square root truncated at 60
fractional digits).  No claim in this development depends on its value,
only on the negative-radicand guard in the caller. -/
def decSqrt (q : ℚ) : ℚ :=
  ((Nat.sqrt (q.num.toNat * q.den * 10 ^ 120) : ℚ)) / ((q.den : ℚ) * 10 ^ 60)

/-! ## Decimal literal parsing

Embedding of `Decimal(str(operand))` on plain finite decimal literals
`[sign] digits [. digits] [(e|E) [sign] digits]`, which covers every
operand form the sources and claims exercise (special values such as
`NaN`/`Infinity` are out of scope). -/

/-- Value of a digit list read in base 10. -/
def natOfDigits (l : List Char) : ℕ :=
  l.foldl (fun a c => a * 10 + (c.toNat - 48)) 0

/-- Strip an optional leading sign, returning whether it was `-`. -/
def parseSign : List Char → Bool × List Char
  | '-' :: r => (true, r)
  | '+' :: r => (false, r)
  | l => (false, l)

/-- Parse the optional exponent suffix of a decimal literal; `none` on a
malformed suffix, `some 0` if the suffix is absent. -/
def parseExponent (l : List Char) : Option ℤ :=
  match l with
  | [] => some 0
  | 'e' :: r =>
    let (neg, r₁) := parseSign r
    let (ds, r₂) := r₁.span Char.isDigit
    if ds.isEmpty || !r₂.isEmpty then none
    else some (if neg then -(natOfDigits ds : ℤ) else (natOfDigits ds : ℤ))
  | 'E' :: r =>
    let (neg, r₁) := parseSign r
    let (ds, r₂) := r₁.span Char.isDigit
    if ds.isEmpty || !r₂.isEmpty then none
    else some (if neg then -(natOfDigits ds : ℤ) else (natOfDigits ds : ℤ))
  | _ => none

/-- Parse a decimal literal string to its exact rational value; `none`
models the `InvalidOperation` raised by the `Decimal` constructor. -/
def parseDecimal (s : String) : Option ℚ :=
  let (neg, r) := parseSign s.toList
  let (ip, r₁) := r.span Char.isDigit
  let (fp, r₂) :=
    match r₁ with
    | '.' :: rest => rest.span Char.isDigit
    | _ => (([] : List Char), r₁)
  if ip.isEmpty && fp.isEmpty then none
  else
    match parseExponent r₂ with
    | none => none
    | some e =>
      let mant : ℚ := (natOfDigits (ip ++ fp) : ℚ)
      let v := mant * pow10 (e - (fp.length : ℤ))
      some (if neg then -v else v)

/-! ## Currency data model (`currency_manager.py`) -/

/-- Currency kind (`CurrencyType` enum). -/
inductive CurrencyType
  | fiat
  | crypto
  | commodity
deriving DecidableEq

/-- Currency definition with metadata (`Currency` dataclass). -/
structure Currency where
  code : String
  name : String
  symbol : String
  ctype : CurrencyType
  decimalPlaces : ℕ
  isActive : Bool
  country : Option String := none
deriving DecidableEq

/-- Seeded currency table (`CurrencyManager._initialize_currencies`). -/
def currencies : List Currency :=
  [⟨"USD", "US Dollar", "$", .fiat, 2, true, some "United States"⟩,
   ⟨"EUR", "Euro", "€", .fiat, 2, true, some "European Union"⟩,
   ⟨"GBP", "British Pound", "£", .fiat, 2, true, some "United Kingdom"⟩,
   ⟨"JPY", "Japanese Yen", "¥", .fiat, 0, true, some "Japan"⟩,
   ⟨"CHF", "Swiss Franc", "CHF", .fiat, 2, true, some "Switzerland"⟩,
   ⟨"CAD", "Canadian Dollar", "C$", .fiat, 2, true, some "Canada"⟩,
   ⟨"AUD", "Australian Dollar", "A$", .fiat, 2, true, some "Australia"⟩,
   ⟨"NZD", "New Zealand Dollar", "NZ$", .fiat, 2, true, some "New Zealand"⟩,
   ⟨"SEK", "Swedish Krona", "kr", .fiat, 2, true, some "Sweden"⟩,
   ⟨"NOK", "Norwegian Krone", "kr", .fiat, 2, true, some "Norway"⟩,
   ⟨"DKK", "Danish Krone", "kr", .fiat, 2, true, some "Denmark"⟩,
   ⟨"PLN", "Polish Zloty", "zł", .fiat, 2, true, some "Poland"⟩,
   ⟨"CZK", "Czech Koruna", "Kč", .fiat, 2, true, some "Czech Republic"⟩,
   ⟨"HUF", "Hungarian Forint", "Ft", .fiat, 0, true, some "Hungary"⟩,
   ⟨"BGN", "Bulgarian Lev", "лв", .fiat, 2, true, some "Bulgaria"⟩,
   ⟨"RON", "Romanian Leu", "lei", .fiat, 2, true, some "Romania"⟩,
   ⟨"HRK", "Croatian Kuna", "kn", .fiat, 2, true, some "Croatia"⟩,
   ⟨"RUB", "Russian Ruble", "₽", .fiat, 2, true, some "Russia"⟩,
   ⟨"CNY", "Chinese Yuan", "¥", .fiat, 2, true, some "China"⟩,
   ⟨"INR", "Indian Rupee", "₹", .fiat, 2, true, some "India"⟩,
   ⟨"BRL", "Brazilian Real", "R$", .fiat, 2, true, some "Brazil"⟩,
   ⟨"MXN", "Mexican Peso", "$", .fiat, 2, true, some "Mexico"⟩,
   ⟨"ZAR", "South African Rand", "R", .fiat, 2, true, some "South Africa"⟩,
   ⟨"SGD", "Singapore Dollar", "S$", .fiat, 2, true, some "Singapore"⟩,
   ⟨"HKD", "Hong Kong Dollar", "HK$", .fiat, 2, true, some "Hong Kong"⟩,
   ⟨"BTC", "Bitcoin", "₿", .crypto, 8, true, none⟩,
   ⟨"ETH", "Ethereum", "Ξ", .crypto, 8, true, none⟩,
   ⟨"ADA", "Cardano", "₳", .crypto, 8, true, none⟩,
   ⟨"DOT", "Polkadot", "DOT", .crypto, 8, true, none⟩,
   ⟨"SOL", "Solana", "SOL", .crypto, 8, true, none⟩,
   ⟨"MATIC", "Polygon", "MATIC", .crypto, 8, true, none⟩,
   ⟨"AVAX", "Avalanche", "AVAX", .crypto, 8, true, none⟩,
   ⟨"LINK", "Chainlink", "LINK", .crypto, 8, true, none⟩,
   ⟨"UNI", "Uniswap", "UNI", .crypto, 8, true, none⟩,
   ⟨"LTC", "Litecoin", "Ł", .crypto, 8, true, none⟩]

/-- Key lookup in the currency table (`self.currencies` dict access). -/
def currencyLookup (code : String) : Option Currency :=
  currencies.find? (fun c => c.code == code)

/-! ## Rate providers and the aggregator (`currency_manager.py`) -/

/-- Slice of a provider metadata dict: the fields the claims observe
(`source`, `same_currency`, `mock_data`, `from_cache`,
`cache_age_seconds`). -/
structure RateMeta where
  source : String
  sameCurrency : Bool := false
  mockData : Bool := false
  fromCache : Bool := false
  cacheAgeSeconds : Option ℚ := none
deriving DecidableEq

/-- Per-provider observability counters (`request_count`, `error_count`). -/
structure ProviderState where
  requests : ℕ := 0
  errors : ℕ := 0
deriving DecidableEq

/-- Network behaviour of one provider: the rate it would yield for a pair,
or `none` for its internally-caught failure path (which, in both network
providers of the source, always returns `(None, None)` after bumping
`error_count`). -/
def Oracle : Type := String → String → Option ℚ

/-- Oracle of a provider whose every fetch fails. -/
def noneOracle : Oracle := fun _ _ => none

/-- Oracle of a provider returning the fixed rate `r` for every pair. -/
def constOracle (r : ℚ) : Oracle := fun _ _ => some r

/-- One `provider.get_rate` call of a network provider: rate `1` with no
request counted for a same-currency pair; otherwise the request counter is
bumped and, on the failure path, so is the error counter. -/
def runProvider (behavior : Oracle) (ps : ProviderState) (f t : String) :
    Option ℚ × ProviderState :=
  if f = t then (some 1, ps)
  else
    match behavior f t with
    | some r => (some r, { ps with requests := ps.requests + 1 })
    | none => (none, { requests := ps.requests + 1, errors := ps.errors + 1 })

/-- Hard-coded table of `MockProvider.mock_rates` (all keyed to USD). -/
def mockRates : List ((String × String) × ℚ) :=
  [(("EUR", "USD"), 217 / 200),
   (("GBP", "USD"), 253 / 200),
   (("JPY", "USD"), 91 / 10000),
   (("CHF", "USD"), 219 / 200),
   (("CAD", "USD"), 157 / 200),
   (("AUD", "USD"), 27 / 40),
   (("BTC", "USD"), 45000),
   (("ETH", "USD"), 3000),
   (("ADA", "USD"), 9 / 20),
   (("DOT", "USD"), 13 / 2),
   (("SOL", "USD"), 95),
   (("MATIC", "USD"), 17 / 20),
   (("AVAX", "USD"), 37 / 2),
   (("LINK", "USD"), 29 / 2),
   (("UNI", "USD"), 25 / 4),
   (("LTC", "USD"), 95)]

/-- Membership-plus-lookup in `mock_rates` (`(pair) in self.mock_rates`
followed by indexing). -/
def findRate (p : String × String) : Option ℚ :=
  (mockRates.find? (fun e => e.1 == p)).map (fun e => e.2)

/-- Rate computed by the body of `MockProvider.get_rate` for a
distinct-currency pair: direct entry, then inverse entry, then the two
USD cross derivations, then the default rate `1.0`.  Divisions are
`Decimal` divisions at the configured precision. -/
def mockProviderRate (f t : String) : ℚ :=
  match findRate (f, t) with
  | some r => r
  | none =>
    match findRate (t, f) with
    | some r => decDiv 1 r
    | none =>
      match findRate (f, "USD"), findRate (t, "USD") with
      | some fu, some tu => decDiv fu tu
      | _, _ =>
        match findRate ("USD", f), findRate ("USD", t) with
        | some uf, some ut => decDiv (decDiv 1 uf) (decDiv 1 ut)
        | _, _ => 1

/-- `MockProvider.get_rate`: a same-currency pair short-circuits to `1`;
every other pair bumps `request_count` and returns `mockProviderRate`
tagged `mock_data=True`.  The `try` body cannot raise, so the
error-counting branch is unreachable and the result is always a rate. -/
def mockGetRate (ps : ProviderState) (f t : String) :
    Option (ℚ × RateMeta) × ProviderState :=
  if f = t then (some (1, { source := "MockProvider" }), ps)
  else
    (some (mockProviderRate f t, { source := "MockProvider", mockData := true }),
     { ps with requests := ps.requests + 1 })

/-- Oracle view of the mock provider: it defines every pair, so it never
fails. -/
def mockOracle : Oracle := fun f t => some (mockProviderRate f t)

/-- Rate-alone view of the provider `for` loop in `get_exchange_rate`:
providers are tried in list order and the first non-failure rate wins;
if every provider fails the loop falls through to the
all-providers-exhausted failure (`None`). -/
def tryProvidersList (provs : List Oracle) (f t : String) : Option ℚ :=
  match provs with
  | [] => none
  | p :: rest =>
    match p f t with
    | some r => some r
    | none => tryProvidersList rest f t

/-- Boolean form of "every provider in the list fails on this pair". -/
def allFail (provs : List Oracle) (f t : String) : Bool :=
  provs.all (fun p => (p f t).isNone)

/-- One cache entry: `(rate, metadata, fetched-at timestamp)` as stored in
`self.rate_cache[cache_key]`.  Timestamps are seconds on an abstract
clock. -/
structure CacheEntry where
  rate : ℚ
  meta : RateMeta
  timestamp : ℚ
deriving DecidableEq

/-- Association-list model of the `rate_cache` dict. -/
def cacheLookup (k : String) : List (String × CacheEntry) → Option CacheEntry
  | [] => none
  | (k', e) :: t => if k = k' then some e else cacheLookup k t

/-- Dict assignment `self.rate_cache[key] = entry`. -/
def cacheInsert (k : String) (e : CacheEntry) :
    List (String × CacheEntry) → List (String × CacheEntry)
  | [] => [(k, e)]
  | (k', e') :: t => if k = k' then (k, e) :: t else (k', e') :: cacheInsert k e t

/-- Cache TTL: `cache_duration = timedelta(minutes=5)`, in seconds. -/
def cacheDurationSeconds : ℚ := 300

/-- Mutable state of a `CurrencyManager`: the rate cache, the three
providers' counters (list order of `self.providers`: ExchangeRates-API,
CoinGecko, MockProvider), and the `self.stats` counters the claims
observe. -/
structure CMState where
  cache : List (String × CacheEntry) := []
  p1 : ProviderState := {}
  p2 : ProviderState := {}
  p3 : ProviderState := {}
  totalRequests : ℕ := 0
  cacheHits : ℕ := 0
  cacheMisses : ℕ := 0
  successfulConversions : ℕ := 0
  failedConversions : ℕ := 0
deriving DecidableEq

/-- Cache-miss tail of `get_exchange_rate`: bump `cache_misses`, try the
three providers in list order (first non-failure rate wins, is written to
the cache, and is returned), fall through to the exhausted failure if all
fail.  The first two providers' network behaviour is given by oracles;
the mock provider is concrete. -/
def tryProvidersPath (b1 b2 : Oracle) (st : CMState) (f t key : String)
    (now : ℚ) : Option (ℚ × RateMeta) × CMState :=
  let st1 := { st with cacheMisses := st.cacheMisses + 1 }
  match runProvider b1 st1.p1 f t with
  | (some r, p1') =>
    let m : RateMeta := { source := "ExchangeRates-API" }
    (some (r, m),
     { st1 with p1 := p1', cache := cacheInsert key ⟨r, m, now⟩ st1.cache,
                successfulConversions := st1.successfulConversions + 1 })
  | (none, p1') =>
    match runProvider b2 st1.p2 f t with
    | (some r, p2') =>
      let m : RateMeta := { source := "CoinGecko" }
      (some (r, m),
       { st1 with p1 := p1', p2 := p2',
                  cache := cacheInsert key ⟨r, m, now⟩ st1.cache,
                  successfulConversions := st1.successfulConversions + 1 })
    | (none, p2') =>
      match mockGetRate st1.p3 f t with
      | (some (r, m), p3') =>
        (some (r, m),
         { st1 with p1 := p1', p2 := p2', p3 := p3',
                    cache := cacheInsert key ⟨r, m, now⟩ st1.cache,
                    successfulConversions := st1.successfulConversions + 1 })
      | (none, p3') =>
        (none, { st1 with p1 := p1', p2 := p2', p3 := p3',
                          failedConversions := st1.failedConversions + 1 })

/-- `CurrencyManager.get_exchange_rate`: bump `total_requests`, normalize
the codes, short-circuit a same-currency pair to rate `1` tagged
`internal`, reject unsupported codes, serve a fresh-enough cache entry
tagged `from_cache=True` with its age (unless `force_refresh`), and
otherwise fall through to the provider loop. -/
def getExchangeRate (b1 b2 : Oracle) (st : CMState) (fromC toC : String)
    (forceRefresh : Bool) (now : ℚ) : Option (ℚ × RateMeta) × CMState :=
  let st := { st with totalRequests := st.totalRequests + 1 }
  let f := strUpper fromC
  let t := strUpper toC
  if f = t then
    (some (1, { source := "internal", sameCurrency := true }), st)
  else if (currencyLookup f).isNone || (currencyLookup t).isNone then
    (none, { st with failedConversions := st.failedConversions + 1 })
  else
    let key := f ++ "_" ++ t
    let cached : Option CacheEntry :=
      if forceRefresh then none else cacheLookup key st.cache
    match cached with
    | some e =>
      if now - e.timestamp < cacheDurationSeconds then
        (some (e.rate,
               { e.meta with
                 fromCache := true
                 cacheAgeSeconds := some (now - e.timestamp) }),
         { st with cacheHits := st.cacheHits + 1 })
      else tryProvidersPath b1 b2 st f t key now
    | none => tryProvidersPath b1 b2 st f t key now

/-- `CurrencyManager.convert_amount`: parse the amount, fetch the rate,
multiply at `Decimal` precision, then round to the target currency's
configured decimal places (currency-display rounding, distinct from the
engine's arithmetic precision). -/
def convertAmount (b1 b2 : Oracle) (st : CMState) (amount : String)
    (fromC toC : String) (now : ℚ) : Option (ℚ × RateMeta) × CMState :=
  match parseDecimal amount with
  | none => (none, st)
  | some amt =>
    match getExchangeRate b1 b2 st fromC toC false now with
    | (none, st') => (none, st')
    | (some (rate, meta), st') =>
      let converted := decMul amt rate
      match currencyLookup (strUpper toC) with
      | some cur => (some (quantizeDp cur.decimalPlaces converted, meta), st')
      | none => (some (converted, meta), st')

/-! ## Calculator facade (`fastapi_main.py`, class `LivePrecisionCalculator`)

Note on name shadowing in the source module: line 31 imports the
aggregator instance `currency_manager` from `currency_manager.py`, but
line 384 rebinds the module-global `currency_manager` to an instance of
the module-local mock class `CurrencyManager` (defined at lines 344-382),
whose `get_exchange_rate` returns a bare `Decimal`.  Every reference to
`currency_manager` inside `calculate_with_healing` therefore resolves to
the local mock, and the tuple unpacking
`rate, metadata = await currency_manager.get_exchange_rate(...)` at line
102 raises `TypeError: cannot unpack non-iterable decimal.Decimal object`
whenever `currency_from != currency_to`. -/

/-- Rate table of the module-local mock `CurrencyManager` in
`fastapi_main.py` (lines 366-373). -/
def fastapiMockRates : List (String × ℚ) :=
  [("USD", 1), ("EUR", 17 / 20), ("GBP", 73 / 100), ("JPY", 110),
   ("BTC", 45000), ("ETH", 3000)]

/-- `fastapi_main.CurrencyManager.get_exchange_rate`: returns the single
`Decimal` value `to_rate / from_rate` (rates default to `1.0`), not a
pair. -/
def fastapiGetExchangeRate (fromC toC : String) : ℚ :=
  if fromC = toC then 1
  else
    let fromRate := ((fastapiMockRates.find? (fun e => e.1 == fromC)).map
      (fun e => e.2)).getD 1
    let toRate := ((fastapiMockRates.find? (fun e => e.1 == toC)).map
      (fun e => e.2)).getD 1
    decDiv toRate fromRate

/-- Python exceptions raised inside `calculate_with_healing`:
`ValueError` (operand/domain validation), `ZeroDivisionError`,
`InvalidOperation` (bad decimal literal), and the `TypeError` raised by
unpacking the shadowed currency manager's bare `Decimal` result. -/
inductive CalcError
  | valueError (msg : String)
  | zeroDivisionError (msg : String)
  | invalidOperation (msg : String)
  | typeError (msg : String)
deriving DecidableEq

/-- Message carried by the exception (`str(e)`). -/
def CalcError.message : CalcError → String
  | .valueError m => m
  | .zeroDivisionError m => m
  | .invalidOperation m => m
  | .typeError m => m

/-- Python type name of the exception (`type(e).__name__`). -/
def CalcError.typeName : CalcError → String
  | .valueError _ => "ValueError"
  | .zeroDivisionError _ => "ZeroDivisionError"
  | .invalidOperation _ => "InvalidOperation"
  | .typeError _ => "TypeError"

/-- Message of the `InvalidOperation` raised by the `Decimal` constructor
on a malformed literal. -/
def conversionSyntaxMsg : String := "[<class decimal.ConversionSyntax>]"

/-- `LivePrecisionCalculator._perform_calculation`: dispatch on the
lower-cased operation name, validate the operand count and domain, and
compute at `Decimal` precision. -/
def performCalculation (operation : String) (num1 : ℚ) (num2 : Option ℚ) :
    Except CalcError ℚ :=
  match strLower operation, num2 with
  | "add", some n2 => .ok (decAdd num1 n2)
  | "+", some n2 => .ok (decAdd num1 n2)
  | "add", none => .error (.valueError "Addition requires two operands")
  | "+", none => .error (.valueError "Addition requires two operands")
  | "subtract", some n2 => .ok (decSub num1 n2)
  | "-", some n2 => .ok (decSub num1 n2)
  | "subtract", none => .error (.valueError "Subtraction requires two operands")
  | "-", none => .error (.valueError "Subtraction requires two operands")
  | "multiply", some n2 => .ok (decMul num1 n2)
  | "*", some n2 => .ok (decMul num1 n2)
  | "multiply", none => .error (.valueError "Multiplication requires two operands")
  | "*", none => .error (.valueError "Multiplication requires two operands")
  | "divide", some n2 =>
    if n2 = 0 then .error (.zeroDivisionError "Cannot divide by zero")
    else .ok (decDiv num1 n2)
  | "/", some n2 =>
    if n2 = 0 then .error (.zeroDivisionError "Cannot divide by zero")
    else .ok (decDiv num1 n2)
  | "divide", none => .error (.valueError "Division requires two operands")
  | "/", none => .error (.valueError "Division requires two operands")
  | "power", some n2 => .ok (decPow num1 n2)
  | "**", some n2 => .ok (decPow num1 n2)
  | "^", some n2 => .ok (decPow num1 n2)
  | "power", none => .error (.valueError "Power operation requires two operands")
  | "**", none => .error (.valueError "Power operation requires two operands")
  | "^", none => .error (.valueError "Power operation requires two operands")
  | "sqrt", _ =>
    if num1 < 0 then
      .error (.valueError "Cannot calculate square root of negative number")
    else .ok (decSqrt num1)
  | "square_root", _ =>
    if num1 < 0 then
      .error (.valueError "Cannot calculate square root of negative number")
    else .ok (decSqrt num1)
  | "abs", _ => .ok (decAbs num1)
  | "absolute", _ => .ok (decAbs num1)
  | "negate", _ => .ok (decNeg num1)
  | "negative", _ => .ok (decNeg num1)
  | op, _ => .error (.valueError ("Unsupported operation: " ++ op))

/-- Record returned by `LivePrecisionCalculator._apply_error_healing`
(the calculator's own slim healing stub, not the `HealingSuite`). -/
structure HealRec where
  healingSteps : List String
  suggestedCorrections : List String
  autoFixAvailable : Bool
  learningApplied : Bool
  futurePrevention : String
deriving DecidableEq

/-- `LivePrecisionCalculator._apply_error_healing`: keyword-match the
error string, collect steps and suggested corrections, and set
`auto_fix_available` iff there are suggested corrections.  Note the
categorization step records the literal text
`Error categorized as: type`, since the source formats
`type(Exception).__name__`. -/
def applyErrorHealing (operation operand1 : String) (operand2 : Option String)
    (error : String) : HealRec :=
  let hasZero := containsCI "zero" error
  let hasInvalid := containsCI "invalid" error
  let steps :=
    (if hasZero then ["Division by zero detected"] else []) ++
    (if hasInvalid then ["Input validation applied"] else []) ++
    ["Error categorized as: type"]
  let corrections :=
    if hasZero then ["Use non-zero divisor or implement limit calculation"]
    else []
  { healingSteps := steps
    suggestedCorrections := corrections
    autoFixAvailable := corrections.length > 0
    learningApplied := true
    futurePrevention := "Pattern added to error prevention database" }

/-- `LivePrecisionCalculator._suggest_fix`. -/
def suggestFix (error : String) : String :=
  if containsCI "zero" error then
    "Ensure divisor is non-zero. Consider using epsilon for near-zero values."
  else if containsCI "invalid" error then
    "Validate input format. Ensure numeric values are properly formatted."
  else if containsCI "overflow" error then
    "Result exceeds precision limits. Consider breaking into smaller calculations."
  else
    "Check input parameters and operation syntax."

/-- Outcome dict of `calculate_with_healing`: the fields the claims
observe from the success and the failure shapes. -/
structure CalcOutcome where
  success : Bool
  result : Option ℚ := none
  errorMsg : Option String := none
  errorType : Option String := none
  healingResult : Option HealRec := none
  suggestedFix : Option String := none
deriving DecidableEq

/-- The `except` branch of `calculate_with_healing` (lines 148-162):
build the failure outcome with the stub healing record and a suggested
fix. -/
def errorOutcome (e : CalcError) (operation operand1 : String)
    (operand2 : Option String) : CalcOutcome :=
  { success := false
    errorMsg := some e.message
    errorType := some e.typeName
    healingResult := some (applyErrorHealing operation operand1 operand2 e.message)
    suggestedFix := some (suggestFix e.message) }

/-- Tail of the `try` body of `calculate_with_healing` after both operands
parsed: a cross-currency request hits the shadowed local currency manager
(see the module note above) and raises `TypeError` before any arithmetic;
a same-currency request runs `_perform_calculation` and returns its
result. -/
def afterParse (operation operand1 : String) (operand2 : Option String)
    (currencyFrom currencyTo : String) (num1 : ℚ) (num2 : Option ℚ) :
    CalcOutcome :=
  if currencyFrom ≠ currencyTo then
    errorOutcome (.typeError "cannot unpack non-iterable decimal.Decimal object")
      operation operand1 operand2
  else
    match performCalculation operation num1 num2 with
    | .ok r => { success := true, result := some r }
    | .error e => errorOutcome e operation operand1 operand2

/-- `LivePrecisionCalculator.calculate_with_healing`: parse the operand
strings as decimals, handle the currency block, perform the calculation,
and catch every raised exception into the failure outcome shape. -/
def calculateWithHealing (operation operand1 : String) (operand2 : Option String)
    (currencyFrom currencyTo : String) : CalcOutcome :=
  match parseDecimal operand1 with
  | none =>
    errorOutcome (.invalidOperation conversionSyntaxMsg) operation operand1 operand2
  | some num1 =>
    match operand2 with
    | none => afterParse operation operand1 operand2 currencyFrom currencyTo num1 none
    | some s2 =>
      match parseDecimal s2 with
      | none =>
        errorOutcome (.invalidOperation conversionSyntaxMsg) operation operand1 operand2
      | some num2 =>
        afterParse operation operand1 operand2 currencyFrom currencyTo num1 (some num2)

/-! ## Healing suite (`healing_suite.py`) -/

/-- Error categories (`ErrorCategory` enum). -/
inductive ErrorCategory
  | calculation
  | validation
  | network
  | system
  | database
  | redis
  | websocket
  | currency
  | precision
  | security
deriving DecidableEq

/-- Severities (`Severity` enum). -/
inductive Severity
  | low
  | medium
  | high
  | critical
deriving DecidableEq

/-- `ErrorPattern` dataclass.  Every regex in the source is an alternation
of literal fragments (or a single `re.escape`d literal), and
`re.search(p, msg, re.IGNORECASE)` on such a pattern holds exactly when
some fragment is a case-insensitive substring of `msg`; the matcher is
embedded as that fragment list. -/
structure ErrorPattern where
  patternId : String
  matcherAlternatives : List String
  errorType : String
  category : ErrorCategory
  severity : Severity
  autoFixAvailable : Bool
  fixStrategy : String
  occurrences : ℕ := 0
  lastSeen : Option ℚ := none
  successRate : ℚ := 0
deriving DecidableEq

/-- `re.search(pattern.regex_pattern, error_message, re.IGNORECASE)`. -/
def patternMatches (p : ErrorPattern) (msg : String) : Bool :=
  p.matcherAlternatives.any (fun alt => containsCI alt msg)

/-- Default pattern `div_by_zero`. -/
def divByZeroPattern : ErrorPattern :=
  { patternId := "div_by_zero"
    matcherAlternatives := ["division by zero", "divide by zero", "ZeroDivisionError"]
    errorType := "ZeroDivisionError"
    category := .calculation
    severity := .high
    autoFixAvailable := true
    fixStrategy := "Use epsilon value or limit calculation" }

/-- Default pattern `invalid_decimal`. -/
def invalidDecimalPattern : ErrorPattern :=
  { patternId := "invalid_decimal"
    matcherAlternatives := ["invalid literal", "InvalidOperation", "invalid decimal"]
    errorType := "InvalidOperation"
    category := .validation
    severity := .medium
    autoFixAvailable := true
    fixStrategy := "Sanitize and validate input format" }

/-- Default pattern `overflow`. -/
def overflowPattern : ErrorPattern :=
  { patternId := "overflow"
    matcherAlternatives := ["overflow", "too large", "exceeds maximum"]
    errorType := "Overflow"
    category := .precision
    severity := .high
    autoFixAvailable := true
    fixStrategy := "Break into smaller calculations or increase precision" }

/-- Default pattern `network_timeout`. -/
def networkTimeoutPattern : ErrorPattern :=
  { patternId := "network_timeout"
    matcherAlternatives := ["timeout", "connection", "network", "unreachable"]
    errorType := "NetworkError"
    category := .network
    severity := .medium
    autoFixAvailable := true
    fixStrategy := "Retry with exponential backoff" }

/-- Default pattern `redis_connection`. -/
def redisConnectionPattern : ErrorPattern :=
  { patternId := "redis_connection"
    matcherAlternatives := ["redis", "connection pool", "cache"]
    errorType := "RedisError"
    category := .redis
    severity := .medium
    autoFixAvailable := true
    fixStrategy := "Use fallback storage mechanism" }

/-- Patterns seeded by `ErrorDetector._load_default_patterns`. -/
def defaultPatterns : List ErrorPattern :=
  [divByZeroPattern, invalidDecimalPattern, overflowPattern,
   networkTimeoutPattern, redisConnectionPattern]

/-- Boolean form of "no registered pattern matches this message". -/
def noMatch (reg : List ErrorPattern) (msg : String) : Bool :=
  reg.all (fun p => !(patternMatches p msg))

/-- `ErrorDetector._create_pattern_from_error`: heuristic categorization
of an unmatched error.  `isArithmeticOrValueError` stands for
`isinstance(error, (ArithmeticError, ValueError))`; the new matcher is
`re.escape(message[:50])`, i.e. a literal prefix of the message. -/
def createPatternFromError (errorType : String) (isArithmeticOrValueError : Bool)
    (message : String) (numPatterns : ℕ) (now : ℚ) : ErrorPattern :=
  let calcCond := containsCI "calculation" message || isArithmeticOrValueError
  let netCond := containsCI "network" message || containsCI "connection" message
  let dbCond := containsCI "database" message || containsCI "sql" message
  let base : ErrorPattern :=
    { patternId := "auto_" ++ strLower errorType ++ "_" ++ toString numPatterns
      matcherAlternatives := [String.mk (message.toList.take 50)]
      errorType := errorType
      category := .system
      severity := .medium
      autoFixAvailable := false
      fixStrategy := "Manual investigation required"
      occurrences := 1
      lastSeen := some now }
  if calcCond then
    { base with category := .calculation, severity := .high,
                autoFixAvailable := true,
                fixStrategy := "Validate inputs and adjust calculation" }
  else if netCond then
    { base with category := .network, severity := .medium,
                autoFixAvailable := true,
                fixStrategy := "Retry with backoff strategy" }
  else if dbCond then
    { base with category := .database, severity := .high,
                fixStrategy := "Check database connection and retry" }
  else base

/-- In-place update applied to every matching pattern by `detect_error`
(`pattern.occurrences += 1; pattern.last_seen = utcnow()`). -/
def matchBump (now : ℚ) (p : ErrorPattern) : ErrorPattern :=
  { p with occurrences := p.occurrences + 1, lastSeen := some now }

/-- `ErrorDetector.detect_error`: bump every matching registered pattern
and collect them; when none match, synthesize one new pattern, insert it
into the registry, and return it as the sole match.  The result is
`(updated registry, matched patterns)`. -/
def detectError (reg : List ErrorPattern) (errorType : String)
    (isArithmeticOrValueError : Bool) (message : String) (now : ℚ) :
    List ErrorPattern × List ErrorPattern :=
  let updated := reg.map (fun p =>
    if patternMatches p message then matchBump now p else p)
  let matched := updated.filter (fun p => patternMatches p message)
  if matched.isEmpty then
    let newP := createPatternFromError errorType isArithmeticOrValueError
      message reg.length now
    (updated ++ [newP], [newP])
  else (updated, matched)

/-- Result of one correction strategy (`ErrorCorrector` strategies). -/
structure CorrectionOutcome where
  success : Bool
  correctedOperand2 : Option String := none
  reason : Option String := none
deriving DecidableEq

/-- `ErrorCorrector._correct_division_by_zero`: read `operand2` from the
context (defaulting to `"0"`) and, when it is the literal `"0"` or parses
to the value zero, substitute the epsilon literal `"1e-60"`.  A context
value that `float()` cannot parse raises and becomes a failed correction
in the caller's `except` arm, which is folded into the failure result
here. -/
def correctDivisionByZero (contextOperand2 : Option String) : CorrectionOutcome :=
  let operand2 := contextOperand2.getD "0"
  if operand2 = "0" then { success := true, correctedOperand2 := some "1e-60" }
  else
    match parseDecimal operand2 with
    | some v =>
      if v = 0 then { success := true, correctedOperand2 := some "1e-60" }
      else { success := false, reason := some "No zero divisor found" }
    | none => { success := false, reason := some "could not convert string to float" }

/-- Success-rate update applied by `HealingSuite._apply_learning` to every
matched pattern: multiply by 1.1 and cap at 1.0 when the correction stage
succeeded overall; otherwise, when mitigation failed, multiply by 0.9 and
floor at 0.1; otherwise leave unchanged. -/
def applyLearningRate (correctionOverallSuccess mitigationSuccess : Bool)
    (sr : ℚ) : ℚ :=
  if correctionOverallSuccess then min 1 (sr * (11 / 10))
  else if !mitigationSuccess then max (1 / 10) (sr * (9 / 10))
  else sr

/-- The learning-stage pattern mutation (`pattern.success_rate = ...` in
`_apply_learning`). -/
def learnAdjust (correctionOverallSuccess mitigationSuccess : Bool)
    (p : ErrorPattern) : ErrorPattern :=
  { p with successRate :=
      applyLearningRate correctionOverallSuccess mitigationSuccess p.successRate }

/-- The correction-stage pattern mutation (`ErrorCorrector.correct_error`
line 516): on a successful auto-fix the corrected pattern's rate is
averaged toward 1, or set to 0.9 from an initial 0. -/
def correctSuccessBump (p : ErrorPattern) : ErrorPattern :=
  { p with successRate :=
      if p.successRate > 0 then (p.successRate + 1) / 2 else 9 / 10 }

/-! ### `HealingSuite.heal_error` control flow

The five stage calls run inside one `try`; the first stage call that
raises jumps to the `except` arm, which records the exception under the
`healing_error` key and returns the partial result (stage records made
before the fault are kept, later ones are absent).  The stage bodies are
abstracted by fault flags — e.g. `str(error)` raising in detection, or a
`psutil` fault in processing — plus the two success bits the tail of
`heal_error` reads. -/

/-- Abstracted behaviour of one `heal_error` run: whether each stage call
raises internally, and the mitigation/correction success bits. -/
structure StageBehavior where
  detectionRaises : Bool := false
  mitigationRaises : Bool := false
  processingRaises : Bool := false
  correctionRaises : Bool := false
  learningRaises : Bool := false
  mitigationSuccess : Bool := false
  correctionSuccess : Bool := false
deriving DecidableEq

/-- Shape of the returned `healing_result` dict: the keys present in its
`stages` sub-dict (in insertion order), whether `learning_data` was
filled, and the overall `success` flag. -/
structure HealingOutcome where
  stages : List String
  learningDataSet : Bool
  success : Bool
deriving DecidableEq

/-- `HealingSuite.heal_error`.  The `Except` codomain records whether the
call propagates an exception to its caller; every control path of the
source returns normally (the lone `try` catches everything and its
handler cannot raise), so every branch here is `.ok`. -/
def healError (active : Bool) (b : StageBehavior) :
    Except String HealingOutcome :=
  if !active then .ok ⟨[], false, false⟩
  else if b.detectionRaises then
    .ok ⟨["healing_error"], false, false⟩
  else if b.mitigationRaises then
    .ok ⟨["detection", "healing_error"], false, false⟩
  else if b.processingRaises then
    .ok ⟨["detection", "mitigation", "healing_error"], false, false⟩
  else if b.correctionRaises then
    .ok ⟨["detection", "mitigation", "processing", "healing_error"], false, false⟩
  else if b.learningRaises then
    .ok ⟨["detection", "mitigation", "processing", "correction", "healing_error"],
         false, false⟩
  else
    .ok ⟨["detection", "mitigation", "processing", "correction"], true,
         b.correctionSuccess || b.mitigationSuccess⟩

/-- Whether an `Except` value returned normally. -/
def isOkE : Except String HealingOutcome → Bool
  | .ok _ => true
  | .error _ => false

/-- Stage-record keys of a `heal_error` result (empty on a propagated
exception, which never occurs). -/
def stagesOf : Except String HealingOutcome → List String
  | .ok o => o.stages
  | .error _ => []

/-- Whether a `_perform_calculation` result is a `ZeroDivisionError`. -/
def isZeroDivError : Except CalcError ℚ → Bool
  | .error (.zeroDivisionError _) => true
  | _ => false

/-- The `from_cache` tag of a rate result (`false` when absent). -/
def metaFromCacheFlag : Option (ℚ × RateMeta) → Bool
  | some (_, m) => m.fromCache
  | none => false

/-! ## Supporting lemmas -/

/-- Mapping a function that fixes every element of a list is the
identity. -/
theorem map_id_of {α : Type} (l : List α) (f : α → α)
    (h : ∀ x ∈ l, f x = x) : l.map f = l := by
  induction l with
  | nil => rfl
  | cons a t ih =>
    simp only [List.map_cons, List.cons.injEq]
    exact ⟨h a (by simp), ih (fun x hx => h x (by simp [hx]))⟩

/-- A take-prefix passes the prefix test. -/
theorem isPrefixChars_take (n : ℕ) (l : List Char) :
    isPrefixChars (l.take n) l = true := by
  induction l generalizing n with
  | nil => cases n <;> rfl
  | cons c t ih =>
    cases n with
    | zero => rfl
    | succ k => simpa [isPrefixChars] using ih k

/-- A prefix is a substring. -/
theorem containsSub_of_prefix (needle hay : List Char)
    (h : isPrefixChars needle hay = true) : containsSub needle hay = true := by
  cases hay <;> simp [containsSub, h]

/-- Looking up a key just inserted returns the inserted entry. -/
theorem cacheLookup_insert (k : String) (e : CacheEntry)
    (c : List (String × CacheEntry)) :
    cacheLookup k (cacheInsert k e c) = some e := by
  induction c with
  | nil => simp [cacheInsert, cacheLookup]
  | cons h t ih =>
    obtain ⟨k', e'⟩ := h
    by_cases hk : k = k' <;> simp [cacheInsert, cacheLookup, hk, ih]

/-- Pointwise reading of `noMatch`. -/
theorem of_noMatch {reg : List ErrorPattern} {msg : String}
    (h : noMatch reg msg = true) :
    ∀ p ∈ reg, patternMatches p msg = false := by
  intro p hp
  have := (List.all_eq_true.mp h) p hp
  simpa using this

/-! ## Claim C7 -/

/-- Claim C7: for parsed decimal operands, `divide` fails with a
`ZeroDivisionError` exactly when the second operand's decimal value is
zero — the comparison `num2 == 0` is on the exact decimal value, with no
epsilon tolerance — and otherwise returns the context-rounded quotient. -/
theorem claim_C7 (s1 s2 : String) (q1 q2 : ℚ)
    (h1 : parseDecimal s1 = some q1) (h2 : parseDecimal s2 = some q2) :
    (isZeroDivError (performCalculation "divide" q1 (some q2)) = true ↔ q2 = 0)
    ∧ (q2 = 0 → performCalculation "divide" q1 (some q2) =
        .error (.zeroDivisionError "Cannot divide by zero"))
    ∧ (q2 ≠ 0 → performCalculation "divide" q1 (some q2) = .ok (decDiv q1 q2)) := by
  have key : performCalculation "divide" q1 (some q2) =
      if q2 = 0 then .error (.zeroDivisionError "Cannot divide by zero")
      else .ok (decDiv q1 q2) := rfl
  rw [key]
  by_cases hz : q2 = 0 <;> simp [hz, isZeroDivError]

unseal Rat.mul Rat.add Rat.sub Rat.inv in
/-- Witness for claim C7 at the operands `"10"` and `"0.000"`: the literal
`"0.000"` parses to the exact value `0`, so division fails. -/
theorem claim_C7_witness :
    parseDecimal "10" = some 10 ∧ parseDecimal "0.000" = some 0 ∧
    ((isZeroDivError (performCalculation "divide" 10 (some 0)) = true ↔ (0 : ℚ) = 0)
      ∧ ((0 : ℚ) = 0 → performCalculation "divide" 10 (some 0) =
          .error (.zeroDivisionError "Cannot divide by zero"))
      ∧ ((0 : ℚ) ≠ 0 → performCalculation "divide" 10 (some 0) =
          .ok (decDiv 10 0))) :=
  ⟨by decide, by decide,
   claim_C7 "10" "0.000" 10 0 (by decide) (by decide)⟩

/-! ## Claim C8 -/

/-- Claim C8: `get_exchange_rate(A, A, force_refresh)` returns rate `1`
tagged `internal` immediately, for any code `A` and either value of
`force_refresh`, touching no provider and no cache: the state changes
only by the `total_requests` bump. -/
theorem claim_C8 (b1 b2 : Oracle) (st : CMState) (A : String)
    (forceRefresh : Bool) (now : ℚ) :
    getExchangeRate b1 b2 st A A forceRefresh now =
      (some (1, { source := "internal", sameCurrency := true }),
       { st with totalRequests := st.totalRequests + 1 }) := by
  simp [getExchangeRate]

/-! ## Claim C10 -/

/-- Claim C10: for a distinct pair with no direct entry, no inverse entry
and no USD cross derivation in `mock_rates`, `MockProvider.get_rate`
returns the fabricated default rate `1` tagged `mock_data=True` — never a
failure — bumping only its request counter. -/
theorem claim_C10 (f t : String) (ps : ProviderState) (hft : f ≠ t)
    (hdir : findRate (f, t) = none) (hinv : findRate (t, f) = none)
    (hcross1 : findRate (f, "USD") = none ∨ findRate (t, "USD") = none)
    (hcross2 : findRate ("USD", f) = none ∨ findRate ("USD", t) = none) :
    mockGetRate ps f t =
      (some (1, { source := "MockProvider", mockData := true }),
       { ps with requests := ps.requests + 1 })
    ∧ (mockGetRate ps f t).1.isSome = true := by
  have hrate : mockProviderRate f t = 1 := by
    unfold mockProviderRate
    rw [hdir, hinv]
    cases hfu : findRate (f, "USD") <;> cases htu : findRate (t, "USD") <;>
      cases huf : findRate ("USD", f) <;> cases hut : findRate ("USD", t) <;>
        simp_all
  constructor
  · unfold mockGetRate
    rw [if_neg hft, hrate]
  · unfold mockGetRate
    rw [if_neg hft]
    simp

unseal Rat.mul Rat.add Rat.sub Rat.inv in
/-- Witness for claim C10 at the pair `("NZD", "SEK")`, which has no
entry of any form in `mock_rates`. -/
theorem claim_C10_witness :
    ("NZD" ≠ "SEK") ∧ findRate ("NZD", "SEK") = none ∧
    findRate ("SEK", "NZD") = none ∧ findRate ("NZD", "USD") = none ∧
    findRate ("USD", "NZD") = none ∧
    (mockGetRate {} "NZD" "SEK" =
      (some (1, { source := "MockProvider", mockData := true }),
       { requests := 1, errors := 0 })
      ∧ (mockGetRate {} "NZD" "SEK").1.isSome = true) :=
  ⟨by decide, by decide, by decide, by decide, by decide,
   claim_C10 "NZD" "SEK" {} (by decide) (by decide) (by decide)
     (Or.inl (by decide)) (Or.inl (by decide))⟩

/-! ## Claim C1 -/

unseal Rat.mul Rat.add Rat.sub Rat.inv in
/-- Counterexample for claim C1: `Calculate("divide","10","0","USD","USD")`
does return `success=false`, but no retry with corrected operands ever
happens — the exception is caught inside `calculate_with_healing`, whose
`except` arm builds the outcome from the calculator's stub
`_apply_error_healing` (no `correctionApplied` field, no category field,
no corrected operands, no retried result); the outcome carries no result
value at all, refuting the claimed retried result of
`10 / 1e-60` quantized to the configured precision. -/
theorem claim_C1_counterexample :
    ¬((calculateWithHealing "divide" "10" (some "0") "USD" "USD").success = false ∧
      (calculateWithHealing "divide" "10" (some "0") "USD" "USD").result =
        some (decDiv 10 (1 / 10 ^ 60))) := by
  decide

unseal Rat.mul Rat.add Rat.sub Rat.inv in
/-- Claim C1 as amended: the call returns `success=false` with the
`ZeroDivisionError` message; its healing record (from the calculator's
stub `_apply_error_healing`) notes the detected division by zero, offers
a suggested correction and sets `auto_fix_available=True`, but applies
nothing and performs no retry (the outcome has no result).  Separately,
the `HealingSuite` corrector for `div_by_zero`, given a context with
`operand2="0"`, does produce the epsilon substitution
`operand2="1e-60" ≠ "0"` (value `10 ^ (-60) ≠ 0`). -/
theorem claim_C1_amended :
    calculateWithHealing "divide" "10" (some "0") "USD" "USD" =
      { success := false
        result := none
        errorMsg := some "Cannot divide by zero"
        errorType := some "ZeroDivisionError"
        healingResult := some
          { healingSteps := ["Division by zero detected", "Error categorized as: type"]
            suggestedCorrections := ["Use non-zero divisor or implement limit calculation"]
            autoFixAvailable := true
            learningApplied := true
            futurePrevention := "Pattern added to error prevention database" }
        suggestedFix :=
          some "Ensure divisor is non-zero. Consider using epsilon for near-zero values." }
    ∧ correctDivisionByZero (some "0") =
        { success := true, correctedOperand2 := some "1e-60" }
    ∧ "1e-60" ≠ "0"
    ∧ parseDecimal "1e-60" = some (1 / 10 ^ 60)
    ∧ (1 : ℚ) / 10 ^ 60 ≠ 0 := by
  refine ⟨by decide, by decide, by decide, by decide, by decide⟩

/-! ## Claim C2 -/

/-- Claim C2 as amended: `heal_error` never propagates an exception (every
control path returns normally), and when no stage raises internally the
result carries the four stage records `detection`, `mitigation`,
`processing`, `correction` plus the `learning_data` payload, with overall
success `correction OR mitigation`.  When a stage raises, the records of
the stages completed before it are kept, a `healing_error` entry is
recorded, and the later stages' records are absent — illustrated here for
a fault in the mitigation stage. -/
theorem claim_C2_amended (a : Bool) (b : StageBehavior) :
    isOkE (healError a b) = true
    ∧ (b.detectionRaises = false → b.mitigationRaises = false →
        b.processingRaises = false → b.correctionRaises = false →
        b.learningRaises = false →
        healError true b =
          .ok ⟨["detection", "mitigation", "processing", "correction"], true,
               b.correctionSuccess || b.mitigationSuccess⟩)
    ∧ (b.detectionRaises = false → b.mitigationRaises = true →
        healError true b = .ok ⟨["detection", "healing_error"], false, false⟩) := by
  obtain ⟨d, m, p, c, l, ms, cs⟩ := b
  cases a <;> cases d <;> cases m <;> cases p <;> cases c <;> cases l <;>
    simp [healError, isOkE]

/-- Witness for claim C2 at the fault-free behaviour: the result is
returned normally and carries all four stage records plus the learning
payload. -/
theorem claim_C2_witness :
    isOkE (healError true {}) = true ∧
    healError true {} =
      .ok ⟨["detection", "mitigation", "processing", "correction"], true, false⟩ :=
  ⟨(claim_C2_amended true {}).1,
   (claim_C2_amended true {}).2.1 rfl rfl rfl rfl rfl⟩

/-- Counterexample for claim C2: when the detection stage itself raises
internally (for example an `error` argument whose `__str__` raises inside
`detect_error`), the caught exception leaves the result with only the
`healing_error` entry — none of the five per-stage outcome records is
present, refuting the "outcome record for each of the five stages
regardless of internal exceptions" reading. -/
theorem claim_C2_counterexample :
    stagesOf (healError true { detectionRaises := true }) = ["healing_error"]
    ∧ ¬("detection" ∈ stagesOf (healError true { detectionRaises := true }))
    ∧ ¬("mitigation" ∈ stagesOf (healError true { detectionRaises := true })) := by
  decide

/-! ## Claim C4 -/

unseal Rat.mul Rat.add Rat.sub Rat.inv in
/-- Counterexample for claim C4: a matched pattern whose running
`success_rate` is still the seeded initial value `0.0` (here the seeded
`network_timeout` pattern), updated by a healing run whose correction
stage succeeded overall, gets `min(1.0, 0.0 * 1.1) = 0.0` — below the
claimed clamp interval `[0.1, 1.0]`, because the `×1.1` branch clamps
only from above. -/
theorem claim_C4_counterexample :
    (learnAdjust true true networkTimeoutPattern).successRate = 0 ∧
    ¬((1 : ℚ) / 10 ≤ (learnAdjust true true networkTimeoutPattern).successRate) := by
  decide

/-- Claim C4 as amended: the learning stage updates a matched pattern's
`success_rate` to `min(1, sr × 1.1)` when the correction stage succeeded
overall, and to `max(0.1, sr × 0.9)` when correction failed and
mitigation also failed (it leaves the rate unchanged when only mitigation
succeeded); the `×1.1` branch clamps only from above and the `×0.9`
branch only from below, so the updated value stays within `[0.1, 1]`
provided the old value was at least `0.1`, while a seeded value below
`0.1` is not lifted by the `×1.1` branch.  All three pattern mutators of
a healing run (`detect_error`'s occurrence bump, the correction stage's
success bump and the learning update) touch only `occurrences`,
`last_seen` and `success_rate`. -/
theorem claim_C4_amended (c m : Bool) (sr : ℚ) (p : ErrorPattern) (now : ℚ)
    (h0 : 0 ≤ sr) (h1 : sr ≤ 1) :
    (c = true → applyLearningRate c m sr = min 1 (sr * (11 / 10)))
    ∧ (c = false → m = false → applyLearningRate c m sr = max (1 / 10) (sr * (9 / 10)))
    ∧ (c = false → m = true → applyLearningRate c m sr = sr)
    ∧ applyLearningRate c m sr ≤ 1
    ∧ (1 / 10 ≤ sr → 1 / 10 ≤ applyLearningRate c m sr)
    ∧ (learnAdjust c m p).patternId = p.patternId
    ∧ (learnAdjust c m p).matcherAlternatives = p.matcherAlternatives
    ∧ (learnAdjust c m p).errorType = p.errorType
    ∧ (learnAdjust c m p).category = p.category
    ∧ (learnAdjust c m p).severity = p.severity
    ∧ (learnAdjust c m p).autoFixAvailable = p.autoFixAvailable
    ∧ (learnAdjust c m p).fixStrategy = p.fixStrategy
    ∧ (learnAdjust c m p).occurrences = p.occurrences
    ∧ (learnAdjust c m p).lastSeen = p.lastSeen
    ∧ (correctSuccessBump p).patternId = p.patternId
    ∧ (correctSuccessBump p).category = p.category
    ∧ (correctSuccessBump p).severity = p.severity
    ∧ (correctSuccessBump p).autoFixAvailable = p.autoFixAvailable
    ∧ (correctSuccessBump p).occurrences = p.occurrences
    ∧ (correctSuccessBump p).lastSeen = p.lastSeen
    ∧ (matchBump now p).patternId = p.patternId
    ∧ (matchBump now p).category = p.category
    ∧ (matchBump now p).severity = p.severity
    ∧ (matchBump now p).autoFixAvailable = p.autoFixAvailable
    ∧ (matchBump now p).successRate = p.successRate
    ∧ (matchBump now p).occurrences = p.occurrences + 1 := by
  refine ⟨?_, ?_, ?_, ?_, ?_, rfl, rfl, rfl, rfl, rfl, rfl, rfl, rfl, rfl,
    rfl, rfl, rfl, rfl, rfl, rfl, rfl, rfl, rfl, rfl, rfl, rfl⟩
  · intro hc
    simp [applyLearningRate, hc]
  · intro hc hm
    simp [applyLearningRate, hc, hm]
  · intro hc hm
    simp [applyLearningRate, hc, hm]
  · cases c with
    | true =>
      simp only [applyLearningRate, if_true]
      exact min_le_left 1 (sr * (11 / 10))
    | false =>
      cases m with
      | true => simpa [applyLearningRate] using h1
      | false =>
        simp only [applyLearningRate, Bool.false_eq_true, if_false, Bool.not_false,
          if_true]
        refine max_le (by norm_num) (by linarith)
  · intro hsr
    cases c with
    | true =>
      simp only [applyLearningRate, if_true]
      refine le_min (by norm_num) (by linarith)
    | false =>
      cases m with
      | true => simpa [applyLearningRate] using hsr
      | false =>
        simp only [applyLearningRate, Bool.false_eq_true, if_false, Bool.not_false,
          if_true]
        exact le_max_left _ _

unseal Rat.mul Rat.add Rat.sub Rat.inv in
/-- Witness for claim C4 (amended) at `c = true`, `m = false`,
`sr = 1/2`, on the seeded `div_by_zero` pattern. -/
theorem claim_C4_witness :
    (0 : ℚ) ≤ 1 / 2 ∧ (1 / 2 : ℚ) ≤ 1 ∧
    (applyLearningRate true false (1 / 2) = min 1 ((1 / 2) * (11 / 10)) ∧
     (learnAdjust true false divByZeroPattern).patternId = divByZeroPattern.patternId) :=
  ⟨by decide, by decide,
   (claim_C4_amended true false (1 / 2) divByZeroPattern 0 (by decide) (by decide)).1 rfl,
   (claim_C4_amended true false (1 / 2) divByZeroPattern 0 (by decide) (by decide)).2.2.2.2.2.1⟩

/-! ## Claim C9 -/

/-- Filtering with an everywhere-false predicate gives the empty list. -/
theorem filter_false_nil {α : Type} (l : List α) (p : α → Bool)
    (h : ∀ x ∈ l, p x = false) : l.filter p = [] := by
  induction l with
  | nil => rfl
  | cons a t ih =>
    simp [List.filter, h a (by simp), ih (fun x hx => h x (by simp [hx]))]

/-- The synthesized pattern's matcher is the escaped 50-character message
prefix in every heuristic branch. -/
theorem createPattern_matcher (errorType : String) (isAV : Bool)
    (message : String) (n : ℕ) (now : ℚ) :
    (createPatternFromError errorType isAV message n now).matcherAlternatives
      = [String.mk (message.toList.take 50)] := by
  unfold createPatternFromError
  dsimp only
  split_ifs <;> rfl

/-- The synthesized pattern matches the message it was created from: its
escaped prefix matcher is a case-insensitive substring of the message. -/
theorem createPattern_matches_self (errorType : String) (isAV : Bool)
    (message : String) (n : ℕ) (now : ℚ) :
    patternMatches (createPatternFromError errorType isAV message n now) message
      = true := by
  rw [patternMatches, createPattern_matcher]
  simp only [List.any_cons, List.any_nil, Bool.or_false]
  unfold containsCI
  have h1 : (String.mk (message.toList.take 50)).toList = message.toList.take 50 := rfl
  rw [h1]
  have h2 : lowerChars (message.toList.take 50)
      = (lowerChars message.toList).take 50 := by
    simp [lowerChars, List.map_take]
  rw [h2]
  exact containsSub_of_prefix _ _ (isPrefixChars_take _ _)

/-- Claim C9: when an error matches zero registered patterns (in any
reachable registry, which always retains the seeded `network_timeout`
pattern), `detect_error` synthesizes exactly one new pattern, appends it
to the registry, and returns it as the sole match; the new pattern's
category and severity follow the keyword/type heuristics, its auto-fix
flag is true exactly when the calculation heuristic fired (the network
heuristic, whose code path would also set auto-fix, cannot fire here:
a message containing "network" or "connection" would have matched the
seeded `network_timeout` pattern), and the new pattern matches a
recurrence of the same message. -/
theorem claim_C9 (reg : List ErrorPattern) (errorType message : String)
    (isAV : Bool) (now : ℚ)
    (hnet : networkTimeoutPattern ∈ reg)
    (hnone : noMatch reg message = true) :
    detectError reg errorType isAV message now =
      (reg ++ [createPatternFromError errorType isAV message reg.length now],
       [createPatternFromError errorType isAV message reg.length now])
    ∧ containsCI "network" message = false
    ∧ containsCI "connection" message = false
    ∧ (createPatternFromError errorType isAV message reg.length now).autoFixAvailable
        = (containsCI "calculation" message || isAV)
    ∧ ((containsCI "calculation" message || isAV) = true →
        (createPatternFromError errorType isAV message reg.length now).category
          = .calculation ∧
        (createPatternFromError errorType isAV message reg.length now).severity
          = .high)
    ∧ ((containsCI "calculation" message || isAV) = false →
        (containsCI "database" message || containsCI "sql" message) = true →
        (createPatternFromError errorType isAV message reg.length now).category
          = .database ∧
        (createPatternFromError errorType isAV message reg.length now).severity
          = .high)
    ∧ ((containsCI "calculation" message || isAV) = false →
        (containsCI "database" message || containsCI "sql" message) = false →
        (createPatternFromError errorType isAV message reg.length now).category
          = .system ∧
        (createPatternFromError errorType isAV message reg.length now).severity
          = .medium)
    ∧ patternMatches (createPatternFromError errorType isAV message reg.length now)
        message = true := by
  have hpt := of_noMatch hnone
  have hnp := hpt networkTimeoutPattern hnet
  have hAlts := List.any_eq_false.mp (by simpa [patternMatches] using hnp)
  have hNetwork : containsCI "network" message = false := by
    have := hAlts "network" (by simp [networkTimeoutPattern])
    simpa using this
  have hConn : containsCI "connection" message = false := by
    have := hAlts "connection" (by simp [networkTimeoutPattern])
    simpa using this
  have hDet : detectError reg errorType isAV message now =
      (reg ++ [createPatternFromError errorType isAV message reg.length now],
       [createPatternFromError errorType isAV message reg.length now]) := by
    have hupd : reg.map
        (fun p => if patternMatches p message then matchBump now p else p) = reg :=
      map_id_of _ _ (fun x hx => by rw [hpt x hx]; simp)
    have hfilt : reg.filter (fun p => patternMatches p message) = [] :=
      filter_false_nil _ _ (fun x hx => hpt x hx)
    unfold detectError
    simp only [hupd, hfilt]
    simp
  refine ⟨hDet, hNetwork, hConn, ?_, ?_, ?_, ?_,
    createPattern_matches_self errorType isAV message reg.length now⟩ <;>
    unfold createPatternFromError <;> dsimp only <;>
    cases hc : containsCI "calculation" message || isAV <;>
      cases hdb : containsCI "database" message || containsCI "sql" message <;>
        simp_all

unseal Rat.mul Rat.add Rat.sub Rat.inv in
/-- Witness for claim C9 on the seeded default registry with the message
`"unexpected database deadlock in sql engine"` (it matches no seeded
pattern) for a plain `RuntimeError`: exactly one new pattern is
synthesized, categorized `database`/`high`, with auto-fix left `false`. -/
theorem claim_C9_witness :
    networkTimeoutPattern ∈ defaultPatterns
    ∧ noMatch defaultPatterns "unexpected database deadlock in sql engine" = true
    ∧ detectError defaultPatterns "RuntimeError" false
        "unexpected database deadlock in sql engine" 0 =
      (defaultPatterns ++ [createPatternFromError "RuntimeError" false
          "unexpected database deadlock in sql engine" defaultPatterns.length 0],
       [createPatternFromError "RuntimeError" false
          "unexpected database deadlock in sql engine" defaultPatterns.length 0])
    ∧ (createPatternFromError "RuntimeError" false
        "unexpected database deadlock in sql engine" defaultPatterns.length 0).category
        = .database
    ∧ (createPatternFromError "RuntimeError" false
        "unexpected database deadlock in sql engine" defaultPatterns.length 0).severity
        = .high
    ∧ (createPatternFromError "RuntimeError" false
        "unexpected database deadlock in sql engine" defaultPatterns.length 0).autoFixAvailable
        = false
    ∧ patternMatches (createPatternFromError "RuntimeError" false
        "unexpected database deadlock in sql engine" defaultPatterns.length 0)
        "unexpected database deadlock in sql engine" = true := by
  have h := claim_C9 defaultPatterns "RuntimeError"
    "unexpected database deadlock in sql engine" false 0 (by decide) (by decide)
  refine ⟨by decide, by decide, h.1, ?_, ?_, ?_, h.2.2.2.2.2.2.2⟩
  · exact (h.2.2.2.2.2.1 (by decide) (by decide)).1
  · exact (h.2.2.2.2.2.1 (by decide) (by decide)).2
  · rw [h.2.2.2.1]
    decide

/-! ## Claim C5 -/

/-- Claim C5: on a cache miss for a supported distinct pair, the
aggregator tries the providers in their fixed list order
(ExchangeRates-API, then CoinGecko, then the deterministic mock): the
first provider returning a non-failure rate wins, its rate is written to
the cache and returned, and each failing provider's own failure counter
is bumped before the next is tried; the returned rate always equals the
first non-failure result of the provider list, and a loop whose
providers all fail returns the all-providers-exhausted failure — so when
the first two providers fail, the mock provider's rate (defined for
every pair) is still returned. -/
theorem claim_C5 (b1 b2 : Oracle) (st : CMState) (f t : String) (now : ℚ)
    (hfU : strUpper f = f) (htU : strUpper t = t) (hft : f ≠ t)
    (hsf : (currencyLookup f).isSome = true)
    (hst : (currencyLookup t).isSome = true)
    (hmiss : cacheLookup (f ++ "_" ++ t) st.cache = none) :
    (∀ r, b1 f t = some r →
      getExchangeRate b1 b2 st f t false now =
        (some (r, { source := "ExchangeRates-API" }),
         { st with
             totalRequests := st.totalRequests + 1
             cacheMisses := st.cacheMisses + 1
             p1 := { requests := st.p1.requests + 1, errors := st.p1.errors }
             cache := cacheInsert (f ++ "_" ++ t)
               ⟨r, { source := "ExchangeRates-API" }, now⟩ st.cache
             successfulConversions := st.successfulConversions + 1 }))
    ∧ (∀ r, b1 f t = none → b2 f t = some r →
        getExchangeRate b1 b2 st f t false now =
          (some (r, { source := "CoinGecko" }),
           { st with
               totalRequests := st.totalRequests + 1
               cacheMisses := st.cacheMisses + 1
               p1 := { requests := st.p1.requests + 1, errors := st.p1.errors + 1 }
               p2 := { requests := st.p2.requests + 1, errors := st.p2.errors }
               cache := cacheInsert (f ++ "_" ++ t)
                 ⟨r, { source := "CoinGecko" }, now⟩ st.cache
               successfulConversions := st.successfulConversions + 1 }))
    ∧ (b1 f t = none → b2 f t = none →
        getExchangeRate b1 b2 st f t false now =
          (some (mockProviderRate f t,
                 { source := "MockProvider", mockData := true }),
           { st with
               totalRequests := st.totalRequests + 1
               cacheMisses := st.cacheMisses + 1
               p1 := { requests := st.p1.requests + 1, errors := st.p1.errors + 1 }
               p2 := { requests := st.p2.requests + 1, errors := st.p2.errors + 1 }
               p3 := { requests := st.p3.requests + 1, errors := st.p3.errors }
               cache := cacheInsert (f ++ "_" ++ t)
                 ⟨mockProviderRate f t,
                  { source := "MockProvider", mockData := true }, now⟩ st.cache
               successfulConversions := st.successfulConversions + 1 }))
    ∧ Option.map Prod.fst (getExchangeRate b1 b2 st f t false now).1 =
        tryProvidersList [b1, b2, mockOracle] f t
    ∧ (∀ provs fx tx, allFail provs fx tx = true →
        tryProvidersList provs fx tx = none) := by
  have hfn : (currencyLookup f).isNone = false := by
    rcases Option.isSome_iff_exists.mp hsf with ⟨c, hc⟩
    simp [hc]
  have htn : (currencyLookup t).isNone = false := by
    rcases Option.isSome_iff_exists.mp hst with ⟨c, hc⟩
    simp [hc]
  refine ⟨?_, ?_, ?_, ?_, ?_⟩
  · intro r hb1
    simp [getExchangeRate, hfU, htU, hft, hfn, htn, hmiss, tryProvidersPath,
      runProvider, hb1]
  · intro r hb1 hb2
    simp [getExchangeRate, hfU, htU, hft, hfn, htn, hmiss, tryProvidersPath,
      runProvider, hb1, hb2]
  · intro hb1 hb2
    simp [getExchangeRate, hfU, htU, hft, hfn, htn, hmiss, tryProvidersPath,
      runProvider, mockGetRate, hb1, hb2]
  · cases hb1 : b1 f t <;> cases hb2 : b2 f t <;>
      simp [getExchangeRate, hfU, htU, hft, hfn, htn, hmiss, tryProvidersPath,
        runProvider, mockGetRate, mockOracle, tryProvidersList, hb1, hb2]
  · intro provs fx tx
    induction provs with
    | nil => intro _; rfl
    | cons p rest ih =>
      intro hAll
      rw [allFail, List.all_cons] at hAll
      simp only [Bool.and_eq_true] at hAll
      obtain ⟨hp, hrest⟩ := hAll
      have hpn : p fx tx = none := Option.isNone_iff_eq_none.mp hp
      have := ih (by rw [allFail]; exact hrest)
      simp [tryProvidersList, hpn, this]

unseal Rat.mul Rat.add Rat.sub Rat.inv in
/-- Witness for claim C5 at the supported pair `("GBP", "JPY")` with both
network providers failing: the mock provider's USD-cross rate is still
returned and cached, and both failing providers' error counters are
bumped. -/
theorem claim_C5_witness :
    strUpper "GBP" = "GBP" ∧ strUpper "JPY" = "JPY" ∧ "GBP" ≠ "JPY"
    ∧ (currencyLookup "GBP").isSome = true
    ∧ (currencyLookup "JPY").isSome = true
    ∧ cacheLookup ("GBP" ++ "_" ++ "JPY") (CMState.cache {}) = none
    ∧ getExchangeRate noneOracle noneOracle {} "GBP" "JPY" false 0 =
        (some (mockProviderRate "GBP" "JPY",
               { source := "MockProvider", mockData := true }),
         { ({} : CMState) with
             totalRequests := 1
             cacheMisses := 1
             p1 := { requests := 1, errors := 1 }
             p2 := { requests := 1, errors := 1 }
             p3 := { requests := 1, errors := 0 }
             cache := cacheInsert ("GBP" ++ "_" ++ "JPY")
               ⟨mockProviderRate "GBP" "JPY",
                { source := "MockProvider", mockData := true }, 0⟩ []
             successfulConversions := 1 }) :=
  ⟨by decide, by decide, by decide, by decide, by decide, by decide,
   (claim_C5 noneOracle noneOracle {} "GBP" "JPY" 0 (by decide) (by decide)
      (by decide) (by decide) (by decide) (by decide)).2.2.1 rfl rfl⟩

/-! ## Claim C6 -/

/-- Claim C6: for a supported distinct pair, (A) a call finding a cache
entry younger than the TTL returns the cached rate tagged
`from_cache=true` with the recorded age and changes no provider state;
(B) a call on a cache miss returns a rate (the mock guarantees the round
succeeds) and stores it in the cache stamped with the call time, not
tagged from cache; (C) a call finding an entry at least TTL old never
serves it — the result is not cache-tagged and a fresh provider attempt
is made (the first provider's request counter is bumped); and (D) the
two-call composition: after a first call on a cache miss at `t₁`, a second call at
`t₂` with `t₂ - t₁ <` TTL leaves every provider counter unchanged, is
tagged `from_cache=true`, and returns the first call's rate. -/
theorem claim_C6 (b1 b2 : Oracle) (st : CMState) (f t : String)
    (hfU : strUpper f = f) (htU : strUpper t = t) (hft : f ≠ t)
    (hsf : (currencyLookup f).isSome = true)
    (hst : (currencyLookup t).isSome = true) :
    (∀ e now, cacheLookup (f ++ "_" ++ t) st.cache = some e →
      now - e.timestamp < cacheDurationSeconds →
      getExchangeRate b1 b2 st f t false now =
        (some (e.rate,
               { e.meta with
                 fromCache := true
                 cacheAgeSeconds := some (now - e.timestamp) }),
         { st with
             totalRequests := st.totalRequests + 1
             cacheHits := st.cacheHits + 1 }))
    ∧ (∀ t₁, cacheLookup (f ++ "_" ++ t) st.cache = none →
        ∃ r m, (getExchangeRate b1 b2 st f t false t₁).1 = some (r, m) ∧
          cacheLookup (f ++ "_" ++ t)
            (getExchangeRate b1 b2 st f t false t₁).2.cache = some ⟨r, m, t₁⟩ ∧
          m.fromCache = false)
    ∧ (∀ e now, cacheLookup (f ++ "_" ++ t) st.cache = some e →
        cacheDurationSeconds ≤ now - e.timestamp →
        (getExchangeRate b1 b2 st f t false now).2.p1.requests
          = st.p1.requests + 1 ∧
        metaFromCacheFlag (getExchangeRate b1 b2 st f t false now).1 = false)
    ∧ (∀ t₁ t₂ b1' b2', cacheLookup (f ++ "_" ++ t) st.cache = none →
        t₂ - t₁ < cacheDurationSeconds →
        (getExchangeRate b1' b2'
            ((getExchangeRate b1 b2 st f t false t₁).2) f t false t₂).2.p1.requests
          = (getExchangeRate b1 b2 st f t false t₁).2.p1.requests ∧
        (getExchangeRate b1' b2'
            ((getExchangeRate b1 b2 st f t false t₁).2) f t false t₂).2.p2.requests
          = (getExchangeRate b1 b2 st f t false t₁).2.p2.requests ∧
        (getExchangeRate b1' b2'
            ((getExchangeRate b1 b2 st f t false t₁).2) f t false t₂).2.p3.requests
          = (getExchangeRate b1 b2 st f t false t₁).2.p3.requests ∧
        metaFromCacheFlag (getExchangeRate b1' b2'
            ((getExchangeRate b1 b2 st f t false t₁).2) f t false t₂).1 = true ∧
        Option.map Prod.fst (getExchangeRate b1' b2'
            ((getExchangeRate b1 b2 st f t false t₁).2) f t false t₂).1
          = Option.map Prod.fst (getExchangeRate b1 b2 st f t false t₁).1) := by
  have hfn : (currencyLookup f).isNone = false := by
    rcases Option.isSome_iff_exists.mp hsf with ⟨c, hc⟩
    simp [hc]
  have htn : (currencyLookup t).isNone = false := by
    rcases Option.isSome_iff_exists.mp hst with ⟨c, hc⟩
    simp [hc]
  refine ⟨?_, ?_, ?_, ?_⟩
  · intro e now hlook hage
    simp [getExchangeRate, hfU, htU, hft, hfn, htn, hlook, hage]
  · intro t₁ hlook
    cases hb1 : b1 f t with
    | some r =>
      refine ⟨r, { source := "ExchangeRates-API" }, ?_, ?_, rfl⟩ <;>
        simp [getExchangeRate, hfU, htU, hft, hfn, htn, hlook, tryProvidersPath,
          runProvider, hb1, cacheLookup_insert]
    | none =>
      cases hb2 : b2 f t with
      | some r =>
        refine ⟨r, { source := "CoinGecko" }, ?_, ?_, rfl⟩ <;>
          simp [getExchangeRate, hfU, htU, hft, hfn, htn, hlook, tryProvidersPath,
            runProvider, hb1, hb2, cacheLookup_insert]
      | none =>
        refine ⟨mockProviderRate f t,
          { source := "MockProvider", mockData := true }, ?_, ?_, rfl⟩ <;>
          simp [getExchangeRate, hfU, htU, hft, hfn, htn, hlook, tryProvidersPath,
            runProvider, mockGetRate, hb1, hb2, cacheLookup_insert]
  · intro e now hlook hage
    have hnotlt : ¬(now - e.timestamp < cacheDurationSeconds) := not_lt.mpr hage
    cases hb1 : b1 f t <;> cases hb2 : b2 f t <;>
      simp [getExchangeRate, hfU, htU, hft, hfn, htn, hlook, hnotlt,
        tryProvidersPath, runProvider, mockGetRate, metaFromCacheFlag, hb1, hb2]
  · intro t₁ t₂ b1' b2' hlook hage
    cases hb1 : b1 f t <;> cases hb2 : b2 f t <;>
      simp [getExchangeRate, hfU, htU, hft, hfn, htn, hlook, hage,
        tryProvidersPath, runProvider, mockGetRate, metaFromCacheFlag,
        cacheLookup_insert, hb1, hb2]

unseal Rat.mul Rat.add Rat.sub Rat.inv in
/-- Witness for claim C6 at the pair `("EUR", "USD")`: starting from the
empty state, a first call at time `0` with a succeeding first provider,
then a second call at time `100` (within the 300-second TTL) with both
providers failing — the second call is served from the cache, returns
the first call's rate, and touches no provider. -/
theorem claim_C6_witness :
    strUpper "EUR" = "EUR" ∧ strUpper "USD" = "USD" ∧ "EUR" ≠ "USD"
    ∧ (currencyLookup "EUR").isSome = true
    ∧ (currencyLookup "USD").isSome = true
    ∧ cacheLookup ("EUR" ++ "_" ++ "USD") (CMState.cache {}) = none
    ∧ (100 : ℚ) - 0 < cacheDurationSeconds
    ∧ ((getExchangeRate noneOracle noneOracle
          ((getExchangeRate (constOracle (27 / 25)) noneOracle {} "EUR" "USD"
            false 0).2) "EUR" "USD" false 100).2.p1.requests
        = (getExchangeRate (constOracle (27 / 25)) noneOracle {} "EUR" "USD"
            false 0).2.p1.requests
      ∧ metaFromCacheFlag (getExchangeRate noneOracle noneOracle
          ((getExchangeRate (constOracle (27 / 25)) noneOracle {} "EUR" "USD"
            false 0).2) "EUR" "USD" false 100).1 = true) := by
  have h := claim_C6 (constOracle (27 / 25)) noneOracle {} "EUR" "USD"
    (by decide) (by decide) (by decide) (by decide) (by decide)
  have hd := h.2.2.2 0 100 noneOracle noneOracle (by decide) (by decide)
  exact ⟨by decide, by decide, by decide, by decide, by decide, by decide,
    by decide, hd.1, hd.2.2.2.1⟩

/-! ## Claim C3 -/

unseal Rat.mul Rat.add Rat.sub Rat.inv in
/-- Counterexample for claim C3:
`Calculate("add","123.45","67.8","USD","EUR")` does not return the
rounded converted sum at all — it fails.  Inside `fastapi_main.py` the
imported aggregator `currency_manager` (line 31) is shadowed by the
module-local mock (line 384) whose `get_exchange_rate` returns a bare
`Decimal`, so the tuple unpacking at line 102 raises `TypeError` for
every cross-currency call and `calculate_with_healing` returns
`success=false`. -/
theorem claim_C3_counterexample :
    ¬((calculateWithHealing "add" "123.45" (some "67.8") "USD" "EUR").success = true)
    ∧ (calculateWithHealing "add" "123.45" (some "67.8") "USD" "EUR").errorType
        = some "TypeError"
    ∧ (calculateWithHealing "add" "123.45" (some "67.8") "USD" "EUR").errorMsg
        = some "cannot unpack non-iterable decimal.Decimal object" := by
  decide

/-- Claim C3 as amended: the currency-conversion path that works is
`CurrencyManager.convert_amount`, which multiplies the parsed amount by
the fetched rate at `Decimal` precision and then rounds the product to
the target currency's configured decimal places (currency-display
rounding, distinct from the engine's arithmetic precision); but
`calculate_with_healing` itself never reaches a conversion — for every
cross-currency request (any operation, any parsed operands) it fails
with the `TypeError` raised by unpacking the shadowed module-local
currency manager's bare `Decimal` return value. -/
theorem claim_C3_amended :
    (∀ b1 b2 st amount amt fromC toC now r m st' cur,
      parseDecimal amount = some amt →
      getExchangeRate b1 b2 st fromC toC false now = (some (r, m), st') →
      currencyLookup (strUpper toC) = some cur →
      convertAmount b1 b2 st amount fromC toC now =
        (some (quantizeDp cur.decimalPlaces (decMul amt r), m), st'))
    ∧ (∀ op o1 s2 cf ct q1 q2,
        parseDecimal o1 = some q1 → parseDecimal s2 = some q2 → cf ≠ ct →
        (calculateWithHealing op o1 (some s2) cf ct).success = false ∧
        (calculateWithHealing op o1 (some s2) cf ct).errorType = some "TypeError") := by
  constructor
  · intro b1 b2 st amount amt fromC toC now r m st' cur hamt hrate hcur
    unfold convertAmount
    rw [hamt, hrate, hcur]
  · intro op o1 s2 cf ct q1 q2 h1 h2 hne
    simp only [calculateWithHealing, h1, h2]
    unfold afterParse
    rw [if_pos hne]
    exact ⟨rfl, rfl⟩

unseal Rat.mul Rat.add Rat.sub Rat.inv in
/-- Witness for claim C3 (amended): converting `"100.00"` from USD to EUR
with the first provider quoting `0.85` yields `85` after rounding to
EUR's 2 decimal places, and the cross-currency scenario of the original
claim indeed fails with a `TypeError`. -/
theorem claim_C3_witness :
    parseDecimal "100.00" = some 100
    ∧ getExchangeRate (constOracle (17 / 20)) noneOracle {} "USD" "EUR" false 0 =
        (some (17 / 20, { source := "ExchangeRates-API" }),
         { cache := [("USD_EUR",
             ⟨17 / 20, { source := "ExchangeRates-API" }, 0⟩)]
           p1 := { requests := 1, errors := 0 }
           p2 := { requests := 0, errors := 0 }
           p3 := { requests := 0, errors := 0 }
           totalRequests := 1
           cacheHits := 0
           cacheMisses := 1
           successfulConversions := 1
           failedConversions := 0 })
    ∧ currencyLookup (strUpper "EUR") =
        some ⟨"EUR", "Euro", "€", .fiat, 2, true, some "European Union"⟩
    ∧ convertAmount (constOracle (17 / 20)) noneOracle {} "100.00" "USD" "EUR" 0 =
        (some (quantizeDp 2 (decMul 100 (17 / 20)),
               { source := "ExchangeRates-API" }),
         { cache := [("USD_EUR",
             ⟨17 / 20, { source := "ExchangeRates-API" }, 0⟩)]
           p1 := { requests := 1, errors := 0 }
           p2 := { requests := 0, errors := 0 }
           p3 := { requests := 0, errors := 0 }
           totalRequests := 1
           cacheHits := 0
           cacheMisses := 1
           successfulConversions := 1
           failedConversions := 0 })
    ∧ quantizeDp 2 (decMul 100 (17 / 20)) = 85 :=
  ⟨by decide, by decide, by decide,
   claim_C3_amended.1 (constOracle (17 / 20)) noneOracle {} "100.00" 100
     "USD" "EUR" 0 (17 / 20) { source := "ExchangeRates-API" } _
     ⟨"EUR", "Euro", "€", .fiat, 2, true, some "European Union"⟩
     (by decide) (by decide) (by decide),
   by decide⟩

end HtZKD
